import Mathlib

/-!
Shallow embedding of the callback-resolution and session-bootstrap subsystem
of the shared-auth library, together with proofs of the specification claims.

Conventions used throughout:
* TypeScript `string | null | undefined` values are `Option String`; JS
  truthiness of such a value (`null`/`undefined`/`""` are falsy) is `jsTruthy`.
* Remote calls made through the identity gateway are recorded in a trace
  (`List GatewayCall`); their responses are supplied by a `Gateway` oracle.
* A callbacks-style better-auth client call either invokes `onSuccess`,
  invokes `onError`, or rejects at the transport level without invoking
  either callback (`VerifyResponse.reject`).
* A handler run yields `RunResult`: the resolved `CallbackResult` (or `none`
  when the promise in the source can never resolve), the final store state,
  and the gateway-call trace.
* JS host builtins that the source uses (`encodeURIComponent`,
  `window.location.origin`, the `atob`/`JSON.parse` decoding of a JWT
  payload) are parameters of the embedding, collected in `JsPrims`.
-/

namespace SharedAuth

/-- Whether the character list starts with the given pattern. -/
def charsStartWith : List Char → List Char → Bool
  | _, [] => true
  | [], _ :: _ => false
  | c :: cs, p :: ps => c == p && charsStartWith cs ps

/-- Whether the pattern occurs somewhere in the character list. -/
def charsContain : List Char → List Char → Bool
  | [], pat => pat.isEmpty
  | c :: cs, pat => charsStartWith (c :: cs) pat || charsContain cs pat

/-- JS `s.includes(pat)`. -/
def strContains (s pat : String) : Bool := charsContain s.data pat.data

/-- JS `s.trim()` yields the empty string, i.e. the string is blank. -/
def strBlank (s : String) : Bool := s.data.all (·.isWhitespace)

/-- JS truthiness of a `string | null | undefined` value. -/
def jsTruthy : Option String → Bool
  | some s => s != ""
  | none => false

/-- JS `a || b` on two optional strings. -/
def jsOr (a b : Option String) : Option String := if jsTruthy a then a else b

/-- JS `a || b` where the fallback is a plain string. -/
def jsOrStr (a : Option String) (b : String) : String :=
  match a with
  | some s => if s = "" then b else s
  | none => b

/-- Session user record (src/src/types/user.ts `SessionUser`); fields that the
embedded operations never consult are omitted. -/
structure SessionUser where
  id : String
  email : String
  emailVerified : Bool
  name : String
  activeOrganizationId : Option String
  activeTeamId : Option String
  inherentOrganizationId : Option String
  inherentTeamId : Option String
  deriving Repr, DecidableEq

/-- Reactive auth store state (part_007 `AuthState`) plus the durable
localStorage slot (`storedToken`) managed by the token storage. -/
structure AuthState where
  user : Option SessionUser
  isAuthenticated : Bool
  isLoaded : Bool
  loading : Bool
  error : Option String
  token : Option String
  storedToken : Option String
  deriving Repr, DecidableEq

/-- Token storage `save` as wrapped by `createAuthStore`: the durable write
stores a truthy token and removes the key otherwise (a failing localStorage
write is logged and swallowed in the source), then the reactive mirror
`authStore.token` is set to the requested value. -/
def tokenSave (t : Option String) (s : AuthState) : AuthState :=
  { s with storedToken := if jsTruthy t then t else none, token := t }

/-- `tokenStorage.clear()` is `save(null)`. -/
def tokenClear (s : AuthState) : AuthState := tokenSave none s

/-- `storeActions.setUser` (part_012). -/
def setUser (u : Option SessionUser) (s : AuthState) : AuthState :=
  { s with user := u, isAuthenticated := u.isSome }

/-- `storeActions.updateUser` (part_012): shallow-merge into the current user,
no-op when there is no user.  A concrete `updates` record corresponds to the
merge function `upd`. -/
def updateUser (upd : SessionUser → SessionUser) (s : AuthState) : AuthState :=
  match s.user with
  | some u => { s with user := some (upd u) }
  | none => s

/-- `storeActions.setLoading` (part_012). -/
def setLoading (b : Bool) (s : AuthState) : AuthState := { s with loading := b }

/-- `storeActions.setLoaded` (part_012). -/
def setLoaded (b : Bool) (s : AuthState) : AuthState :=
  if b then { s with isLoaded := b, loading := false } else { s with isLoaded := b }

/-- `storeActions.setError` (part_012). -/
def setError (e : Option String) (s : AuthState) : AuthState := { s with error := e }

/-- `storeActions.setAuthenticated` (part_012): the single atomic
sign-in transition. -/
def setAuthenticated (u : SessionUser) (s : AuthState) : AuthState :=
  { s with user := some u, isAuthenticated := true, isLoaded := true,
           loading := false, error := none }

/-- `storeActions.clearAuth` (part_012): clears the user flags and cascades to
`tokenStorage.clear()`. -/
def clearAuth (s : AuthState) : AuthState :=
  tokenClear { s with user := none, isAuthenticated := false, isLoaded := true,
                      loading := false }

/-- `storeActions.handleUnauthorized` (part_012), an alias of `clearAuth`. -/
def handleUnauthorized (s : AuthState) : AuthState := clearAuth s

/-- `storeActions.setActiveOrganizationId` (part_012): merge into the user if
present, otherwise leave the state untouched. -/
def setActiveOrganizationId (oid : Option String) (s : AuthState) : AuthState :=
  match s.user with
  | some u => { s with user := some { u with activeOrganizationId := oid } }
  | none => s

/-- `storeActions.setActiveTeamId` (part_012). -/
def setActiveTeamId (tid : Option String) (s : AuthState) : AuthState :=
  match s.user with
  | some u => { s with user := some { u with activeTeamId := tid } }
  | none => s

/-- `storeActions.initialize` (part_012), renamed `initAction` here. -/
def initAction (u : Option SessionUser) (loaded : Bool) (s : AuthState) : AuthState :=
  let s1 := match u with
    | some user => setAuthenticated user s
    | none => { s with user := none, isAuthenticated := false }
  { s1 with isLoaded := loaded, loading := !loaded }

/-- The store invariant checked for claim C9: the authenticated flag mirrors
the presence of a user. -/
def storeInv (s : AuthState) : Prop := s.isAuthenticated = s.user.isSome

/-- A team as returned by `teamApi.listUserTeams`. -/
structure Team where
  id : String
  name : String
  deriving Repr, DecidableEq

/-- A linked account as returned by `authApi.listAccounts`. -/
structure Account where
  providerId : String
  accountId : String
  deriving Repr, DecidableEq

/-- The invitation carried by an invitation-acceptance response. -/
structure Invitation where
  organizationId : Option String
  teamId : Option String
  deriving Repr, DecidableEq

/-- Response of `organizationApi.acceptInvitation`; both the response and its
`invitation` field may be absent (`result?.invitation?` in the source). -/
structure AcceptInvitationResult where
  invitation : Option Invitation
  deriving Repr, DecidableEq

/-- The error object handed to an `onError` callback: an optional better-auth
code and an optional message. -/
structure AuthError where
  code : Option String
  message : Option String
  deriving Repr, DecidableEq

/-- Behaviour of one callbacks-style better-auth client call: `onSuccess` with
the truth of `ctx.data?.status === true`, `onError` with an error object, or a
transport-level rejection that invokes neither callback. -/
inductive VerifyResponse where
  | success (statusTrue : Bool)
  | failure (e : AuthError)
  | reject
  deriving Repr, DecidableEq

/-- One remote call issued through the identity gateway, as recorded in a
run trace. -/
inductive GatewayCall where
  | verifyEmail (token : String) (callbackURL : Option String)
  | deleteUser (token : String)
  | signOut
  | acceptInvitation (invitationId : String)
  | setActiveOrganization (organizationId : String)
  | setActiveTeam (teamId : String)
  | listUserTeams
  | onboard (token : String)
  | getSessionWithToken (token : String)
  | listAccounts (token : String)
  | unlinkAccount (provider accountId token : String)
  deriving Repr, DecidableEq

/-- Oracle fixing the response of every gateway operation; `Except Unit` on an
await-style call models a promise that either fulfils or rejects. -/
structure Gateway where
  verifyEmail : String → Option String → VerifyResponse
  deleteUser : String → VerifyResponse
  signOutOk : Bool
  acceptInvitation : String → Except Unit (Option AcceptInvitationResult)
  setActiveOrganization : String → Except Unit String
  setActiveTeam : String → Except Unit Unit
  listUserTeams : Except Unit (List Team)
  onboard : String → Except Unit Unit
  getSessionWithToken : String → Except Unit (Option SessionUser)
  listAccounts : String → Except Unit (List Account)
  unlinkAccount : String → String → String → Except Unit Unit

/-- Decoded JWT payload of a change-email token (fields read by the source). -/
structure TokenPayload where
  updateTo : Option String
  email : Option String
  deriving Repr, DecidableEq

/-- JS host builtins used by the source: `encodeURIComponent`,
`window.location.origin`, and the best-effort
`JSON.parse(atob(token.split(".")[1]))` decode (`none` models a throw that the
source catches and ignores). -/
structure JsPrims where
  encodeURIComponent : String → String
  origin : String
  decodeTokenPayload : String → Option TokenPayload

/-- `CallbackResult` (part_015); `dataToken` models the only `data` payload the
embedded handlers produce, the `data: { token }` of the delete-user flow. -/
structure CallbackResult where
  success : Bool
  error : Option String := none
  errorCode : Option String := none
  needsLogin : Option Bool := none
  redirectTo : Option String := none
  dataToken : Option String := none
  deriving Repr, DecidableEq

/-- `CallbackConfig` with all fields required (part_006 `defaultConfig`). -/
structure CallbackConfig where
  lang : String
  defaultRedirect : String
  signInPath : String
  linkExpiredPath : String
  deleteSuccessPath : String
  resetPasswordPath : String
  deriving Repr, DecidableEq

/-- The default callback configuration (part_006). -/
def defaultConfig : CallbackConfig :=
  { lang := "us", defaultRedirect := "/", signInPath := "/sign-in",
    linkExpiredPath := "/auth/link-expired",
    deleteSuccessPath := "/auth/delete-success",
    resetPasswordPath := "/reset-password" }

/-- The callback kinds dispatched by `handleCallback`; the `null` kind is
`Option.none` at the call site. -/
inductive CallbackKind where
  | signup
  | deleteUserKind
  | resetPassword
  | invite
  | confirmChangeEmail
  | verifyChangeEmail
  deriving Repr, DecidableEq

/-- The `options` argument of `handleCallback`. -/
structure CallbackOptions where
  invitationId : Option String := none
  isNewUser : Bool := false
  newEmail : Option String := none
  userEmail : Option String := none

/-- Result of running one handler: the resolved outcome (`none` when the
promise in the source never resolves), the final store state, and the trace of
gateway calls made. -/
structure RunResult where
  outcome : Option CallbackResult
  state : AuthState
  calls : List GatewayCall
  deriving Repr, DecidableEq

/-- The expired-link test shared by the error callbacks:
`errorCode === "INVALID_TOKEN" || ctx.error.message?.includes("expired")`. -/
def isExpiredError (e : AuthError) : Bool :=
  e.code == some "INVALID_TOKEN" ||
    (match e.message with
     | some m => strContains m "expired"
     | none => false)

/-- Result of `authService.fetchAndSetSession`. -/
structure FetchRun where
  result : Option SessionUser
  state : AuthState
  calls : List GatewayCall
  deriving Repr, DecidableEq

/-- `authService.fetchAndSetSession` (part_004): save the token, fetch the
session, and either set the authenticated state or clear it; every throw is
caught and converted into a cleared state and a `null` return. -/
def fetchAndSetSession (gw : Gateway) (token : String) (s : AuthState) : FetchRun :=
  if token = "" then
    ⟨none, clearAuth s, []⟩
  else
    let s1 := tokenSave (some token) s
    match gw.getSessionWithToken token with
    | .error _ => ⟨none, clearAuth s1, [.getSessionWithToken token]⟩
    | .ok (some u) => ⟨some u, setAuthenticated u s1, [.getSessionWithToken token]⟩
    | .ok none => ⟨none, clearAuth s1, [.getSessionWithToken token]⟩

/-- Outcome of an await-style step that may throw: whether it threw, the store
state at that moment (partial updates before the throw are kept), and the
calls it made. -/
structure StepRun where
  threw : Bool
  state : AuthState
  calls : List GatewayCall
  deriving Repr, DecidableEq

/-- `setActiveOrganization` of the auth core (part_009): one gateway call; a
non-ok response throws, a fulfilled response records the returned organization
id in the store. -/
def coreSetActiveOrganization (gw : Gateway) (organizationId : String) (s : AuthState) :
    StepRun :=
  match gw.setActiveOrganization organizationId with
  | .error _ => ⟨true, s, [.setActiveOrganization organizationId]⟩
  | .ok retId => ⟨false, setActiveOrganizationId (some retId) s,
      [.setActiveOrganization organizationId]⟩

/-- `setActiveTeam` of the auth core (part_009). -/
def coreSetActiveTeam (gw : Gateway) (teamId : String) (s : AuthState) : StepRun :=
  match gw.setActiveTeam teamId with
  | .error _ => ⟨true, s, [.setActiveTeam teamId]⟩
  | .ok _ => ⟨false, setActiveTeamId (some teamId) s, [.setActiveTeam teamId]⟩

/-- `setActiveOrganizationAndTeam` (part_009): set-organization followed by
set-team; a throw in either propagates to the caller, after the first call has
already committed its store update. -/
def setActiveOrganizationAndTeam (gw : Gateway) (organizationId teamId : String)
    (s : AuthState) : StepRun :=
  let r1 := coreSetActiveOrganization gw organizationId s
  if r1.threw then r1
  else
    let r2 := coreSetActiveTeam gw teamId r1.state
    ⟨r2.threw, r2.state, r1.calls ++ r2.calls⟩

/-- Result of one `setupCompanionTeam` run: final state, gateway trace, and
whether the `onComplete` and `onError` callbacks fired. -/
structure CompanionRun where
  state : AuthState
  calls : List GatewayCall
  completed : Bool
  errored : Bool
  deriving Repr, DecidableEq

/-- The store merge performed by `updateAuthStore` in companion-team.ts: the
four context ids of the fetched session are written over the current user
(fields absent from the session overwrite with `undefined`, as the object
literal lists all four keys). -/
def updateAuthStore (sess : SessionUser) (s : AuthState) : AuthState :=
  updateUser (fun u => { u with
    activeOrganizationId := sess.activeOrganizationId,
    activeTeamId := sess.activeTeamId,
    inherentOrganizationId := sess.inherentOrganizationId,
    inherentTeamId := sess.inherentTeamId }) s

/-- `setupCompanionTeam` (companion-team.ts): the bootstrap coordinator.
Blank token or absent user is a silent no-op; both active ids present fires
`onComplete` immediately; missing inherent ids triggers the best-effort
onboard path; otherwise the minimal activation calls run, and any throw there
is routed to `onError` by the top-level catch. -/
def setupCompanionTeam (gw : Gateway) (token : String) (s : AuthState) : CompanionRun :=
  if strBlank token then ⟨s, [], false, false⟩
  else
    match s.user with
    | none => ⟨s, [], false, false⟩
    | some u =>
      if jsTruthy u.activeOrganizationId && jsTruthy u.activeTeamId then
        ⟨s, [], true, false⟩
      else if !jsTruthy u.inherentOrganizationId || !jsTruthy u.inherentTeamId then
        match gw.onboard token with
        | .error _ => ⟨s, [.onboard token], true, false⟩
        | .ok _ =>
          match gw.getSessionWithToken token with
          | .error _ => ⟨s, [.onboard token, .getSessionWithToken token], true, false⟩
          | .ok none => ⟨s, [.onboard token, .getSessionWithToken token], true, false⟩
          | .ok (some sess) =>
            ⟨updateAuthStore sess s, [.onboard token, .getSessionWithToken token], true, false⟩
      else
        let r :=
          if !jsTruthy u.activeOrganizationId && jsTruthy u.inherentOrganizationId then
            if !jsTruthy u.activeTeamId && jsTruthy u.inherentTeamId then
              setActiveOrganizationAndTeam gw (u.inherentOrganizationId.getD "")
                (u.inherentTeamId.getD "") s
            else
              coreSetActiveOrganization gw (u.inherentOrganizationId.getD "") s
          else if !jsTruthy u.activeTeamId && jsTruthy u.inherentTeamId then
            coreSetActiveTeam gw (u.inherentTeamId.getD "") s
          else ⟨false, s, []⟩
        if r.threw then ⟨r.state, r.calls, false, true⟩
        else ⟨r.state, r.calls, true, false⟩

/-- The link-expired redirect for a given callback kind echo. -/
def linkExpiredRedirect (cfg : CallbackConfig) (kind : String) : String :=
  cfg.linkExpiredPath ++ "?type=" ++ kind ++ "&lang=" ++ cfg.lang

/-- The plain sign-in redirect. -/
def signInRedirect (cfg : CallbackConfig) : String :=
  cfg.signInPath ++ "?lang=" ++ cfg.lang

/-- `handleEmailVerificationCallback` (part_006, the `signup` kind): verify the
token; on success merge `emailVerified`; on an error callback run the expired
classification (sign-out plus clearAuth when expired) and resolve a failure
whose redirect is the link-expired page in every error case.  A transport
rejection invokes neither callback and the promise never resolves (the source
has no `.catch` here). -/
def handleEmailVerificationCallback (gw : Gateway) (cfg : CallbackConfig)
    (token : String) (s : AuthState) : RunResult :=
  if token = "" then
    ⟨some { success := false, error := some "Token is required",
            redirectTo := some (linkExpiredRedirect cfg "signup") }, s, []⟩
  else
    match gw.verifyEmail token none with
    | .success statusTrue =>
      if !statusTrue then
        ⟨some { success := false, error := some "Verification failed",
                redirectTo := some (linkExpiredRedirect cfg "signup") },
         s, [.verifyEmail token none]⟩
      else
        ⟨some { success := true, redirectTo := some cfg.defaultRedirect },
         updateUser (fun u => { u with emailVerified := true }) s,
         [.verifyEmail token none]⟩
    | .failure e =>
      if isExpiredError e then
        ⟨some { success := false, error := e.message, errorCode := e.code,
                redirectTo := some (linkExpiredRedirect cfg "signup") },
         clearAuth s, [.verifyEmail token none, .signOut]⟩
      else
        ⟨some { success := false, error := e.message, errorCode := e.code,
                redirectTo := some (linkExpiredRedirect cfg "signup") },
         s, [.verifyEmail token none]⟩
    | .reject => ⟨none, s, [.verifyEmail token none]⟩

/-- `handleDeleteUserCallback` (part_006): requires an authenticated store;
otherwise a needs-login outcome echoing the token.  When authenticated the
deletion call runs; its error callback applies the expired classification to
pick between the link-expired and sign-in redirects.  A transport rejection
never resolves (no `.catch` in the source). -/
def handleDeleteUserCallback (gw : Gateway) (prims : JsPrims) (cfg : CallbackConfig)
    (token : String) (userEmail : Option String) (s : AuthState) : RunResult :=
  if token = "" then
    ⟨some { success := false, error := some "Token is required",
            redirectTo := some (linkExpiredRedirect cfg "delete-user") }, s, []⟩
  else if !s.isAuthenticated then
    ⟨some { success := false, needsLogin := some true,
            error := some "Please login to confirm account deletion",
            dataToken := some token }, s, []⟩
  else
    match gw.deleteUser token with
    | .success _ =>
      let email := jsOr userEmail (s.user.map (·.email))
      let emailParam :=
        if jsTruthy email then "&email=" ++ prims.encodeURIComponent (email.getD "") else ""
      ⟨some { success := true,
              redirectTo := some (cfg.deleteSuccessPath ++ "?lang=" ++ cfg.lang ++ emailParam) },
       s, [.deleteUser token]⟩
    | .failure e =>
      ⟨some { success := false, error := e.message, errorCode := e.code,
              redirectTo := some (if isExpiredError e then
                  linkExpiredRedirect cfg "delete-user" else signInRedirect cfg) },
       s, [.deleteUser token]⟩
    | .reject => ⟨none, s, [.deleteUser token]⟩

/-- `handlePasswordResetCallback` (part_006): synchronous, no gateway call,
always a success; a truthy token is echoed as a query parameter. -/
def handlePasswordResetCallback (cfg : CallbackConfig) (token : Option String) :
    CallbackResult :=
  match token with
  | some t =>
    if t != "" then
      { success := true,
        redirectTo := some (cfg.resetPasswordPath ++ "?token=" ++ t ++ "&lang=" ++ cfg.lang) }
    else
      { success := true, redirectTo := some (cfg.resetPasswordPath ++ "?lang=" ++ cfg.lang) }
  | none =>
    { success := true, redirectTo := some (cfg.resetPasswordPath ++ "?lang=" ++ cfg.lang) }

/-- The invite-failed outcome produced by the catch-all of the invite
handler. -/
def inviteFailedOutcome (cfg : CallbackConfig) : CallbackResult :=
  { success := false, error := some "Failed to accept invitation",
    redirectTo := some (cfg.defaultRedirect ++ "?notification=inviteFailed&lang=" ++ cfg.lang) }

/-- Tail of the invite flow once the activation calls succeeded: best-effort
team-name lookup (its own catch swallows a rejection) and the workspace
redirect. -/
def inviteTeamRedirect (gw : Gateway) (prims : JsPrims) (cfg : CallbackConfig)
    (teamId : String) (s : AuthState) (callsSoFar : List GatewayCall) : RunResult :=
  let teamName :=
    match gw.listUserTeams with
    | .error _ => ""
    | .ok teams => jsOrStr ((teams.find? (fun t => t.id == teamId)).map (·.name)) ""
  let teamNameParam :=
    if teamName != "" then "&teamName=" ++ prims.encodeURIComponent teamName else ""
  ⟨some { success := true,
          redirectTo := some ("/workspace/team/" ++ teamId ++ "?notification=inviteAccepted"
            ++ teamNameParam ++ "&lang=" ++ cfg.lang) },
   s, callsSoFar ++ [.listUserTeams]⟩

/-- `handleInviteCallback` (part_006): wait for the store to load, defer to
sign-in when no credential is stored, otherwise accept the invitation and,
when the invitation references a team, activate organization and team before
redirecting to the workspace; every throw in that block is swallowed into the
invite-failed outcome.  The `waitForAuth` suspension is modelled as a
non-resolving run when the store is not loaded. -/
def handleInviteCallback (gw : Gateway) (prims : JsPrims) (cfg : CallbackConfig)
    (invitationId : Option String) (s : AuthState) : RunResult :=
  match invitationId with
  | none =>
    ⟨some { success := false, error := some "Invitation ID is required",
            redirectTo := some cfg.defaultRedirect }, s, []⟩
  | some inv =>
    if !s.isLoaded then ⟨none, s, []⟩
    else if !jsTruthy s.storedToken then
      ⟨some { success := true,
              redirectTo := some (cfg.signInPath ++ "?lang=" ++ cfg.lang
                ++ "&invitationId=" ++ inv) }, s, []⟩
    else
      match gw.acceptInvitation inv with
      | .error _ => ⟨some (inviteFailedOutcome cfg), s, [.acceptInvitation inv]⟩
      | .ok res =>
        let invitation := res.bind (·.invitation)
        match invitation with
        | some invit =>
          if jsTruthy invit.teamId then
            let tid := invit.teamId.getD ""
            let r :=
              if jsTruthy invit.organizationId then
                setActiveOrganizationAndTeam gw (invit.organizationId.getD "") tid s
              else
                coreSetActiveTeam gw tid s
            if r.threw then
              ⟨some (inviteFailedOutcome cfg), r.state, .acceptInvitation inv :: r.calls⟩
            else
              inviteTeamRedirect gw prims cfg tid r.state (.acceptInvitation inv :: r.calls)
          else
            ⟨some { success := true,
                    redirectTo := some (cfg.defaultRedirect
                      ++ "?notification=inviteAccepted&lang=" ++ cfg.lang) },
             s, [.acceptInvitation inv]⟩
        | none =>
          ⟨some { success := true,
                  redirectTo := some (cfg.defaultRedirect
                    ++ "?notification=inviteAccepted&lang=" ++ cfg.lang) },
           s, [.acceptInvitation inv]⟩

/-- The display email of the confirm-change-email flow: the caller-supplied
`newEmail` if truthy, else the best-effort `updateTo` claim decoded from the
token (a decode throw leaves it empty). -/
def confirmDisplayEmail (prims : JsPrims) (token newEmail : String) : String :=
  if newEmail != "" then newEmail
  else
    match prims.decodeTokenPayload token with
    | some payload => jsOrStr payload.updateTo ""
    | none => ""

/-- The phase-2 callback URL passed to the gateway by the confirm step. -/
def confirmCallbackURL (prims : JsPrims) (cfg : CallbackConfig) : String :=
  prims.origin ++ "/auth/callback?type=verify-change-email&lang=" ++ cfg.lang

/-- The verify-email display redirect shared by the success and the
optimistic transport-fallback branches of the confirm step. -/
def confirmSuccessRedirect (prims : JsPrims) (cfg : CallbackConfig)
    (token newEmail : String) : String :=
  "/verify-email?email=" ++ prims.encodeURIComponent (confirmDisplayEmail prims token newEmail)
    ++ "&type=change-email&lang=" ++ cfg.lang

/-- `handleConfirmChangeEmailCallback` (part_006, phase 1 of the email
change): no authentication required; verify the token with the phase-2
callback URL; an error callback applies the expired classification; a
transport rejection is caught and resolved as an optimistic success with the
same display redirect as the success branch. -/
def handleConfirmChangeEmailCallback (gw : Gateway) (prims : JsPrims)
    (cfg : CallbackConfig) (token newEmail : String) (s : AuthState) : RunResult :=
  if token = "" then
    ⟨some { success := false, error := some "Token is required",
            redirectTo := some (linkExpiredRedirect cfg "confirm-change-email") }, s, []⟩
  else
    let url := confirmCallbackURL prims cfg
    match gw.verifyEmail token (some url) with
    | .success statusTrue =>
      if !statusTrue then
        ⟨some { success := false, error := some "Verification failed",
                redirectTo := some (linkExpiredRedirect cfg "confirm-change-email") },
         s, [.verifyEmail token (some url)]⟩
      else
        ⟨some { success := true,
                redirectTo := some (confirmSuccessRedirect prims cfg token newEmail) },
         s, [.verifyEmail token (some url)]⟩
    | .failure e =>
      ⟨some { success := false, error := e.message, errorCode := e.code,
              redirectTo := some (if isExpiredError e then
                  linkExpiredRedirect cfg "confirm-change-email" else signInRedirect cfg) },
       s, [.verifyEmail token (some url)]⟩
    | .reject =>
      ⟨some { success := true,
              redirectTo := some (confirmSuccessRedirect prims cfg token newEmail) },
       s, [.verifyEmail token (some url)]⟩

/-- The new email decoded for display by the verify step:
`payload.updateTo || payload.email || ""`. -/
def verifyNewEmail (prims : JsPrims) (token : String) : String :=
  match prims.decodeTokenPayload token with
  | some payload => jsOrStr payload.updateTo (jsOrStr payload.email "")
  | none => ""

/-- `buildSuccessRedirect` of the verify step: home with the change
notice when a credential is stored, sign-in with the new email
pre-filled otherwise. -/
def verifySuccessRedirect (prims : JsPrims) (cfg : CallbackConfig) (token : String)
    (s : AuthState) : String :=
  let newEmail := verifyNewEmail prims token
  let emailParam :=
    if newEmail != "" then "&email=" ++ prims.encodeURIComponent newEmail else ""
  if jsTruthy s.storedToken then
    cfg.defaultRedirect ++ "?notification=emailChanged" ++ emailParam ++ "&lang=" ++ cfg.lang
  else
    cfg.signInPath ++ "?notification=emailChanged" ++ emailParam ++ "&lang=" ++ cfg.lang

/-- `handleVerifyChangeEmailCallback` (part_006, phase 2): verify the token;
on success, when a credential is stored, refresh the session (fire-and-forget
in the source, executed inline here) and best-effort unlink a linked github
account; the redirect depends on whether a credential is stored.  An error
callback applies the expired classification; a transport rejection is caught
and resolved as an optimistic success. -/
def handleVerifyChangeEmailCallback (gw : Gateway) (prims : JsPrims)
    (cfg : CallbackConfig) (token : String) (s : AuthState) : RunResult :=
  if token = "" then
    ⟨some { success := false, error := some "Token is required",
            redirectTo := some (linkExpiredRedirect cfg "verify-change-email") }, s, []⟩
  else
    match gw.verifyEmail token none with
    | .success statusTrue =>
      if !statusTrue then
        ⟨some { success := false, error := some "Verification failed",
                redirectTo := some (linkExpiredRedirect cfg "verify-change-email") },
         s, [.verifyEmail token none]⟩
      else
        if jsTruthy s.storedToken then
          let tok := s.storedToken.getD ""
          let fr := fetchAndSetSession gw tok s
          let unlinkCalls :=
            match gw.listAccounts tok with
            | .error _ => [GatewayCall.listAccounts tok]
            | .ok accounts =>
              match accounts.find? (fun a => a.providerId == "github") with
              | none => [GatewayCall.listAccounts tok]
              | some a => [GatewayCall.listAccounts tok,
                  GatewayCall.unlinkAccount "github" a.accountId tok]
          ⟨some { success := true,
                  redirectTo := some (verifySuccessRedirect prims cfg token fr.state) },
           fr.state, .verifyEmail token none :: fr.calls ++ unlinkCalls⟩
        else
          ⟨some { success := true,
                  redirectTo := some (verifySuccessRedirect prims cfg token s) },
           s, [.verifyEmail token none]⟩
    | .failure e =>
      ⟨some { success := false, error := e.message, errorCode := e.code,
              redirectTo := some (if isExpiredError e then
                  linkExpiredRedirect cfg "verify-change-email" else signInRedirect cfg) },
       s, [.verifyEmail token none]⟩
    | .reject =>
      ⟨some { success := true,
              redirectTo := some (verifySuccessRedirect prims cfg token s) },
       s, [.verifyEmail token none]⟩

/-- `handleCallback` (part_006): the six-way dispatcher.  A `null` kind is an
immediate success with the default redirect; the token is defaulted with
`token || ""`, the invitation id with `invitationId || null`, and the new
email with `newEmail || ""`, exactly as at the dispatch site. -/
def handleCallback (gw : Gateway) (prims : JsPrims) (cfg : CallbackConfig)
    (kind : Option CallbackKind) (token : Option String) (options : CallbackOptions)
    (s : AuthState) : RunResult :=
  match kind with
  | none => ⟨some { success := true, redirectTo := some cfg.defaultRedirect }, s, []⟩
  | some .signup => handleEmailVerificationCallback gw cfg (token.getD "") s
  | some .deleteUserKind =>
    handleDeleteUserCallback gw prims cfg (token.getD "") options.userEmail s
  | some .resetPassword => ⟨some (handlePasswordResetCallback cfg token), s, []⟩
  | some .invite =>
    handleInviteCallback gw prims cfg
      (if jsTruthy options.invitationId then options.invitationId else none) s
  | some .confirmChangeEmail =>
    handleConfirmChangeEmailCallback gw prims cfg (token.getD "")
      (jsOrStr options.newEmail "") s
  | some .verifyChangeEmail =>
    handleVerifyChangeEmailCallback gw prims cfg (token.getD "") s

/-- One run of the auth-changed effect of `useAuthSync` (part_000) with the
`onAuthChange` callback installed: given the remembered previous value (the
ref starts at the `null` sentinel) and the current `isAuthenticated`, return
the new remembered value and whether the callback fired. -/
def authChangeStep (prev : Option Bool) (isAuth : Bool) : Option Bool × Bool :=
  if prev = some isAuth then (prev, false)
  else (some isAuth, true)

/-- Number of callback firings over a sequence of observed `isAuthenticated`
values, folding `authChangeStep` from a remembered value. -/
def runFires (prev : Option Bool) : List Bool → Nat
  | [] => 0
  | b :: rest =>
    let r := authChangeStep prev b
    (if r.2 then 1 else 0) + runFires r.1 rest

/-- Specification-level count of the changes of the observed value relative to
the remembered one (the remembered value tracking each observation). -/
def changeCount (prev : Option Bool) : List Bool → Nat
  | [] => 0
  | b :: rest => (if prev = some b then 0 else 1) + changeCount (some b) rest

/-- Whether a gateway call belongs to the invite activation pair. -/
def isActivationCall : GatewayCall → Bool
  | .setActiveOrganization _ => true
  | .setActiveTeam _ => true
  | _ => false

/-- A concrete user with both active and both inherent context ids. -/
def exUser : SessionUser :=
  { id := "u1", email := "user@example.com", emailVerified := true, name := "User",
    activeOrganizationId := some "org-a", activeTeamId := some "team-a",
    inherentOrganizationId := some "org-i", inherentTeamId := some "team-i" }

/-- A loaded, unauthenticated store state. -/
def baseState : AuthState :=
  { user := none, isAuthenticated := false, isLoaded := true, loading := false,
    error := none, token := none, storedToken := none }

/-- A loaded, authenticated store state with a stored credential. -/
def authState : AuthState :=
  { baseState with
    user := some exUser, isAuthenticated := true,
    token := some "tok-1", storedToken := some "tok-1" }

/-- A gateway oracle on which every operation succeeds. -/
def stubGateway : Gateway :=
  { verifyEmail := fun _ _ => .success true,
    deleteUser := fun _ => .success true,
    signOutOk := true,
    acceptInvitation := fun _ => .ok none,
    setActiveOrganization := fun oid => .ok oid,
    setActiveTeam := fun _ => .ok (),
    listUserTeams := .ok [],
    onboard := fun _ => .ok (),
    getSessionWithToken := fun _ => .ok (some exUser),
    listAccounts := fun _ => .ok [],
    unlinkAccount := fun _ _ _ => .ok () }

/-- Concrete JS builtins: identity encoding and an always-failing decode. -/
def idPrims : JsPrims :=
  { encodeURIComponent := fun s => s, origin := "https://app.example.com",
    decodeTokenPayload := fun _ => none }

/-- Gateway whose callbacks-style calls report an unknown, non-expired
error. -/
def gwOtherError : Gateway :=
  { stubGateway with
    verifyEmail := fun _ _ =>
      .failure { code := some "UNAUTHORIZED", message := some "verification rejected" },
    deleteUser := fun _ =>
      .failure { code := some "UNAUTHORIZED", message := some "verification rejected" } }

/-- Gateway whose callbacks-style calls report an error with no known code but
a message containing the substring expired. -/
def gwExpiredError : Gateway :=
  { stubGateway with
    verifyEmail := fun _ _ => .failure { code := none, message := some "token expired" },
    deleteUser := fun _ => .failure { code := none, message := some "token expired" } }

/-- Gateway whose callbacks-style calls reject at the transport level. -/
def gwReject : Gateway :=
  { stubGateway with
    verifyEmail := fun _ _ => .reject,
    deleteUser := fun _ => .reject }

/-- Gateway whose invitation acceptance returns an invitation carrying both an
organization and a team id. -/
def gwInvite : Gateway :=
  { stubGateway with
    acceptInvitation := fun _ =>
      .ok (some { invitation := some { organizationId := some "org-1", teamId := some "team-1" } }) }

/-- `gwInvite` whose set-team call rejects while set-organization fulfils. -/
def gwInviteTeamFails : Gateway :=
  { gwInvite with setActiveTeam := fun _ => .error () }

/-- The auth-sync fold fires exactly as often as the observed value changes
relative to the remembered one. -/
theorem runFires_eq_changeCount : ∀ (l : List Bool) (prev : Option Bool),
    runFires prev l = changeCount prev l := by
  intro l
  induction l with
  | nil => intro prev; rfl
  | cons b rest ih =>
    intro prev
    by_cases h : prev = some b
    · simp [runFires, changeCount, authChangeStep, h, ih]
    · simp [runFires, changeCount, authChangeStep, h, ih]

/-- Claim C8: the auth-changed notification of the sync loop is
edge-triggered.  One step fires the callback precisely when the current
`isAuthenticated` differs from the remembered value (initially the `null`
sentinel); a step on an unchanged value leaves the remembered value alone and
does not fire; immediately repeating a value never fires twice; and over any
observation sequence the number of firings equals the number of changes
relative to the running remembered value. -/
theorem C8_auth_change_edge_triggered (prev : Option Bool) (b : Bool) (l : List Bool) :
    ((authChangeStep prev b).2 = true ↔ prev ≠ some b) ∧
    (prev = some b → authChangeStep prev b = (prev, false)) ∧
    authChangeStep (authChangeStep prev b).1 b = (some b, false) ∧
    runFires prev l = changeCount prev l := by
  refine ⟨?_, ?_, ?_, runFires_eq_changeCount l prev⟩
  · by_cases h : prev = some b <;> simp [authChangeStep, h]
  · intro h; simp [authChangeStep, h]
  · by_cases h : prev = some b <;> simp [authChangeStep, h]

/-- Witness for C8 at concrete inputs: a reconciliation on an unchanged value
does not fire, and over the sequence true, true, false the firings match the
changes. -/
theorem C8_auth_change_edge_triggered_witness :
    authChangeStep (some true) true = (some true, false) ∧
    runFires none [true, true, false] = changeCount none [true, true, false] :=
  ⟨(C8_auth_change_edge_triggered (some true) true []).2.1 rfl,
   (C8_auth_change_edge_triggered none true [true, true, false]).2.2.2⟩

/-- Claim C9: every store action preserves the invariant that the
authenticated flag mirrors the presence of a user, and the two active-id
setters leave the whole state unchanged when there is no user. -/
theorem C9_store_actions_preserve_invariant
    (s : AuthState) (u : SessionUser) (uo : Option SessionUser)
    (upd : SessionUser → SessionUser) (b : Bool) (e oid tid : Option String)
    (h : storeInv s) :
    storeInv (setUser uo s) ∧ storeInv (updateUser upd s) ∧
    storeInv (setLoading b s) ∧ storeInv (setLoaded b s) ∧
    storeInv (setError e s) ∧ storeInv (setAuthenticated u s) ∧
    storeInv (clearAuth s) ∧ storeInv (handleUnauthorized s) ∧
    storeInv (setActiveOrganizationId oid s) ∧ storeInv (setActiveTeamId tid s) ∧
    storeInv (initAction uo b s) ∧
    (s.user = none → setActiveOrganizationId oid s = s ∧ setActiveTeamId tid s = s) := by
  obtain ⟨user, isAuth, loaded, loading, err, tok, stok⟩ := s
  cases user <;> cases uo <;> cases b <;>
    simp_all [storeInv, setUser, updateUser, setLoading, setLoaded, setError,
      setAuthenticated, clearAuth, handleUnauthorized, setActiveOrganizationId,
      setActiveTeamId, initAction, tokenClear, tokenSave, jsTruthy]

/-- Witness for C9 at a concrete state: clearing auth from the base state
keeps the invariant. -/
theorem C9_store_actions_preserve_invariant_witness : storeInv (clearAuth baseState) :=
  (C9_store_actions_preserve_invariant baseState exUser none id true none none none
    rfl).2.2.2.2.2.2.1

/-- Claim C10: `fetchAndSetSession` is total (never rejects) and lands in one
of exactly two shapes: a non-null user with the atomic authenticated state
set, or a null result after the auth state was cleared and the stored token
removed — for every token, including the empty one, and for every gateway
behaviour, including a throwing session fetch. -/
theorem C10_fetchAndSetSession_dichotomy (gw : Gateway) (token : String) (s : AuthState) :
    (∃ u, (fetchAndSetSession gw token s).result = some u ∧
       (fetchAndSetSession gw token s).state.user = some u ∧
       (fetchAndSetSession gw token s).state.isAuthenticated = true ∧
       (fetchAndSetSession gw token s).state.isLoaded = true ∧
       (fetchAndSetSession gw token s).state.loading = false ∧
       (fetchAndSetSession gw token s).state.error = none) ∨
    ((fetchAndSetSession gw token s).result = none ∧
       (fetchAndSetSession gw token s).state.user = none ∧
       (fetchAndSetSession gw token s).state.isAuthenticated = false ∧
       (fetchAndSetSession gw token s).state.isLoaded = true ∧
       (fetchAndSetSession gw token s).state.storedToken = none) := by
  unfold fetchAndSetSession
  by_cases h : token = ""
  · right
    simp [h, clearAuth, tokenClear, tokenSave, jsTruthy]
  · cases hg : gw.getSessionWithToken token with
    | error e =>
      right
      simp [h, hg, clearAuth, tokenClear, tokenSave, jsTruthy]
    | ok o =>
      cases o with
      | some u =>
        left
        exact ⟨u, by simp [h, hg, setAuthenticated, tokenSave]⟩
      | none =>
        right
        simp [h, hg, clearAuth, tokenClear, tokenSave, jsTruthy]

/-- Counterexample for C4: with a blank credential, `setupCompanionTeam` on a
session that already has both active ids performs zero gateway calls but
returns without invoking the completion callback, so the claim's unconditional
"invokes the completion callback" fails. -/
theorem C4_companion_blank_token_counterexample :
    (setupCompanionTeam stubGateway "" authState).calls = [] ∧
    (setupCompanionTeam stubGateway "" authState).completed = false := by decide

/-- Claim C4 as amended: provided the credential is non-blank, a session whose
user already has both active ids makes `setupCompanionTeam` perform zero
gateway calls, leave the state unchanged, and invoke the completion callback;
hence a second invocation on the unchanged state also performs zero calls. -/
theorem C4_companion_idempotent_when_active (gw : Gateway) (token : String)
    (s : AuthState) (u : SessionUser)
    (htok : strBlank token = false) (hu : s.user = some u)
    (ho : jsTruthy u.activeOrganizationId = true) (ht : jsTruthy u.activeTeamId = true) :
    setupCompanionTeam gw token s = ⟨s, [], true, false⟩ ∧
    setupCompanionTeam gw token (setupCompanionTeam gw token s).state = ⟨s, [], true, false⟩ := by
  have h1 : setupCompanionTeam gw token s = ⟨s, [], true, false⟩ := by
    unfold setupCompanionTeam
    simp [htok, hu, ho, ht]
  refine ⟨h1, ?_⟩
  rw [h1]
  exact h1

/-- Witness for C4 at concrete inputs: a non-blank token and a session with
both active ids. -/
theorem C4_companion_idempotent_when_active_witness :
    setupCompanionTeam stubGateway "tok" authState = ⟨authState, [], true, false⟩ :=
  (C4_companion_idempotent_when_active stubGateway "tok" authState exUser
    (by decide) rfl (by decide) (by decide)).1

/-- Claim C5: a delete-user callback with a non-empty token on an
unauthenticated store resolves to the needs-login failure echoing the token,
with no gateway call; moreover this kind issues a gateway call at all only
when the store is authenticated. -/
theorem C5_delete_user_needs_login (gw : Gateway) (prims : JsPrims)
    (t : String) (opts : CallbackOptions) (s : AuthState)
    (ht : t ≠ "") (hauth : s.isAuthenticated = false) :
    handleCallback gw prims defaultConfig (some .deleteUserKind) (some t) opts s =
      ⟨some { success := false, needsLogin := some true,
              error := some "Please login to confirm account deletion",
              dataToken := some t }, s, []⟩ ∧
    (∀ (s2 : AuthState) (t2 : Option String),
       (handleCallback gw prims defaultConfig (some .deleteUserKind) t2 opts s2).calls ≠ [] →
       s2.isAuthenticated = true) := by
  constructor
  · unfold handleCallback handleDeleteUserCallback
    simp [ht, hauth]
  · intro s2 t2 hc
    by_contra hna
    have hb : s2.isAuthenticated = false := by
      cases h2 : s2.isAuthenticated
      · rfl
      · exact absurd h2 hna
    apply hc
    unfold handleCallback handleDeleteUserCallback
    by_cases hte : t2.getD "" = ""
    · simp [hte]
    · simp [hte, hb]

/-- Witness for C5 at concrete inputs: non-empty token, unauthenticated
base state. -/
theorem C5_delete_user_needs_login_witness :
    handleCallback stubGateway idPrims defaultConfig (some .deleteUserKind)
      (some "tk") {} baseState =
      ⟨some { success := false, needsLogin := some true,
              error := some "Please login to confirm account deletion",
              dataToken := some "tk" }, baseState, []⟩ :=
  (C5_delete_user_needs_login stubGateway idPrims "tk" {} baseState
    (by decide) rfl).1

/-- Counterexample for C7: the empty string is a non-null token, yet the
resolver produces the redirect without the token query parameter, refuting the
claim's reading of present as non-null. -/
theorem C7_reset_password_empty_token_counterexample :
    (handleCallback stubGateway idPrims defaultConfig (some .resetPassword)
      (some "") {} baseState).outcome =
      some { success := true, redirectTo := some "/reset-password?lang=us" } ∧
    (some "" : Option String) ≠ none ∧
    ("/reset-password?lang=us" : String) ≠ "/reset-password?token=&lang=us" := by decide

/-- Claim C7 as amended: reset-password makes no gateway call, never touches
the state, and always succeeds; the redirect carries the token query exactly
when the token is non-null and non-empty (JS truthiness), and omits it when
the token is null or empty. -/
theorem C7_reset_password_pure (gw : Gateway) (prims : JsPrims) (cfg : CallbackConfig)
    (token : Option String) (opts : CallbackOptions) (s : AuthState) :
    (handleCallback gw prims cfg (some .resetPassword) token opts s).state = s ∧
    (handleCallback gw prims cfg (some .resetPassword) token opts s).calls = [] ∧
    (jsTruthy token = true →
       (handleCallback gw prims cfg (some .resetPassword) token opts s).outcome =
         some { success := true,
                redirectTo := some (cfg.resetPasswordPath ++ "?token=" ++ token.getD ""
                  ++ "&lang=" ++ cfg.lang) }) ∧
    (jsTruthy token = false →
       (handleCallback gw prims cfg (some .resetPassword) token opts s).outcome =
         some { success := true,
                redirectTo := some (cfg.resetPasswordPath ++ "?lang=" ++ cfg.lang) }) := by
  refine ⟨rfl, rfl, ?_, ?_⟩
  · intro hj
    cases token with
    | none => simp [jsTruthy] at hj
    | some t =>
      have htne : (t != "") = true := by simpa [jsTruthy] using hj
      unfold handleCallback handlePasswordResetCallback
      simp [htne]
  · intro hj
    cases token with
    | none =>
      unfold handleCallback handlePasswordResetCallback
      simp
    | some t =>
      have hte : (t != "") = false := by simpa [jsTruthy] using hj
      unfold handleCallback handlePasswordResetCallback
      simp [hte]

/-- Witness for C7 at concrete inputs: an absent token yields the redirect
without the token parameter. -/
theorem C7_reset_password_pure_witness :
    (handleCallback stubGateway idPrims defaultConfig (some .resetPassword)
      none {} baseState).outcome =
      some { success := true, redirectTo := some "/reset-password?lang=us" } :=
  (C7_reset_password_pure stubGateway idPrims defaultConfig none {} baseState).2.2.2 rfl

/-- Counterexample for C1: a signup verification error that is not classified
expired still redirects to the link-expired path, not to the sign-in path the
claim announces for the otherwise branch. -/
theorem C1_signup_error_counterexample :
    (handleCallback gwOtherError idPrims defaultConfig (some .signup)
      (some "tk") {} baseState).outcome =
      some { success := false, error := some "verification rejected",
             errorCode := some "UNAUTHORIZED",
             redirectTo := some "/auth/link-expired?type=signup&lang=us" } ∧
    ("/auth/link-expired?type=signup&lang=us" : String) ≠ signInRedirect defaultConfig := by
  decide

/-- Claim C1 as amended: on a signup verification error, an expired
classification (code INVALID_TOKEN or message containing expired) triggers
best-effort sign-out plus clearAuth and a failure with the link-expired
redirect; a non-expired error also redirects to the link-expired path
(carrying the errorCode) — the sign-in redirect belongs to the delete-user
flow, not signup.  The message-substring heuristic classifies an error with an
unknown code as expired for both signup and delete-user. -/
theorem C1_signup_error_classification (gw : Gateway) (prims : JsPrims)
    (cfg : CallbackConfig) (s : AuthState) (t : String) (e : AuthError)
    (opts : CallbackOptions)
    (ht : t ≠ "")
    (hv : gw.verifyEmail t none = .failure e)
    (hd : gw.deleteUser t = .failure e) :
    (isExpiredError e = true →
       handleCallback gw prims cfg (some .signup) (some t) opts s =
         ⟨some { success := false, error := e.message, errorCode := e.code,
                 redirectTo := some (linkExpiredRedirect cfg "signup") },
          clearAuth s, [.verifyEmail t none, .signOut]⟩) ∧
    (isExpiredError e = false →
       handleCallback gw prims cfg (some .signup) (some t) opts s =
         ⟨some { success := false, error := e.message, errorCode := e.code,
                 redirectTo := some (linkExpiredRedirect cfg "signup") },
          s, [.verifyEmail t none]⟩) ∧
    (∀ m, e.message = some m → strContains m "expired" = true →
       isExpiredError e = true) ∧
    (s.isAuthenticated = true → isExpiredError e = true →
       (handleCallback gw prims cfg (some .deleteUserKind) (some t) opts s).outcome =
         some { success := false, error := e.message, errorCode := e.code,
                redirectTo := some (linkExpiredRedirect cfg "delete-user") }) := by
  refine ⟨?_, ?_, ?_, ?_⟩
  · intro hx
    unfold handleCallback handleEmailVerificationCallback
    simp [ht, hv, hx]
  · intro hx
    unfold handleCallback handleEmailVerificationCallback
    simp [ht, hv, hx]
  · intro m hm hc
    unfold isExpiredError
    simp [hm, hc]
  · intro ha hx
    unfold handleCallback handleDeleteUserCallback
    simp [ht, ha, hd, hx]

/-- Witness for C1 at concrete inputs: an error with no code but the message
token expired is classified expired and clears the authenticated state. -/
theorem C1_signup_error_classification_witness :
    handleCallback gwExpiredError idPrims defaultConfig (some .signup)
      (some "tk") {} authState =
      ⟨some { success := false, error := some "token expired", errorCode := none,
              redirectTo := some (linkExpiredRedirect defaultConfig "signup") },
       clearAuth authState, [.verifyEmail "tk" none, .signOut]⟩ :=
  (C1_signup_error_classification gwExpiredError idPrims defaultConfig authState "tk"
    { code := none, message := some "token expired" } {} (by decide) rfl rfl).1
    (by decide)

/-- Claim C6: when the confirm-change-email gateway call rejects at the
transport level, the resolver resolves an optimistic success whose redirect is
the email-verification display page built from the best-effort display email,
identical to the outcome of the genuine success case. -/
theorem C6_confirm_change_email_optimistic (gw gws : Gateway) (prims : JsPrims)
    (cfg : CallbackConfig) (t : String) (opts : CallbackOptions) (s : AuthState)
    (ht : t ≠ "")
    (hrej : gw.verifyEmail t (some (confirmCallbackURL prims cfg)) = .reject)
    (hsucc : gws.verifyEmail t (some (confirmCallbackURL prims cfg)) = .success true) :
    handleCallback gw prims cfg (some .confirmChangeEmail) (some t) opts s =
      ⟨some { success := true,
              redirectTo := some (confirmSuccessRedirect prims cfg t
                (jsOrStr opts.newEmail "")) },
       s, [.verifyEmail t (some (confirmCallbackURL prims cfg))]⟩ ∧
    (handleCallback gw prims cfg (some .confirmChangeEmail) (some t) opts s).outcome =
      (handleCallback gws prims cfg (some .confirmChangeEmail) (some t) opts s).outcome := by
  have h1 : handleCallback gw prims cfg (some .confirmChangeEmail) (some t) opts s =
      ⟨some { success := true,
              redirectTo := some (confirmSuccessRedirect prims cfg t
                (jsOrStr opts.newEmail "")) },
       s, [.verifyEmail t (some (confirmCallbackURL prims cfg))]⟩ := by
    unfold handleCallback handleConfirmChangeEmailCallback
    simp [ht, hrej]
  have h2 : handleCallback gws prims cfg (some .confirmChangeEmail) (some t) opts s =
      ⟨some { success := true,
              redirectTo := some (confirmSuccessRedirect prims cfg t
                (jsOrStr opts.newEmail "")) },
       s, [.verifyEmail t (some (confirmCallbackURL prims cfg))]⟩ := by
    unfold handleCallback handleConfirmChangeEmailCallback
    simp [ht, hsucc]
  rw [h1, h2]
  exact ⟨rfl, rfl⟩

/-- Witness for C6 at concrete inputs: a rejecting gateway against the
all-success gateway. -/
theorem C6_confirm_change_email_optimistic_witness :
    handleCallback gwReject idPrims defaultConfig (some .confirmChangeEmail)
      (some "tk") { newEmail := some "n@x.com" } baseState =
      ⟨some { success := true,
              redirectTo := some (confirmSuccessRedirect idPrims defaultConfig "tk"
                (jsOrStr (some "n@x.com") "")) },
       baseState,
       [.verifyEmail "tk" (some (confirmCallbackURL idPrims defaultConfig))]⟩ :=
  (C6_confirm_change_email_optimistic gwReject stubGateway idPrims defaultConfig "tk"
    { newEmail := some "n@x.com" } baseState (by decide) rfl rfl).1

/-- Claim C3: accepting an invitation that carries both an organization and a
team id issues exactly the two activation calls set-organization then
set-team, in that order, inside a trace where they precede the team-name
lookup feeding the redirect; and the pair is not atomic — set-team failing
after set-organization succeeded leaves the organization activated in the
store while the team id is untouched, with the invite-failed outcome. -/
theorem C3_invite_activation_order (gw : Gateway) (prims : JsPrims)
    (cfg : CallbackConfig) (s : AuthState) (inv oid tid retId : String)
    (hload : s.isLoaded = true) (htok : jsTruthy s.storedToken = true)
    (hinv : inv ≠ "") (hoid : oid ≠ "") (htid : tid ≠ "")
    (hacc : gw.acceptInvitation inv =
      .ok (some { invitation := some { organizationId := some oid, teamId := some tid } })) :
    (gw.setActiveOrganization oid = .ok retId → gw.setActiveTeam tid = .ok () →
       (handleCallback gw prims cfg (some .invite) none
         { invitationId := some inv } s).calls =
         [.acceptInvitation inv, .setActiveOrganization oid, .setActiveTeam tid,
          .listUserTeams] ∧
       ((handleCallback gw prims cfg (some .invite) none
         { invitationId := some inv } s).calls.filter isActivationCall) =
         [.setActiveOrganization oid, .setActiveTeam tid] ∧
       ((handleCallback gw prims cfg (some .invite) none
         { invitationId := some inv } s).outcome.map (·.success)) = some true) ∧
    (gw.setActiveOrganization oid = .ok retId → gw.setActiveTeam tid = .error () →
       (handleCallback gw prims cfg (some .invite) none
         { invitationId := some inv } s).outcome = some (inviteFailedOutcome cfg) ∧
       (handleCallback gw prims cfg (some .invite) none
         { invitationId := some inv } s).calls =
         [.acceptInvitation inv, .setActiveOrganization oid, .setActiveTeam tid] ∧
       (∀ u, s.user = some u →
          (handleCallback gw prims cfg (some .invite) none
            { invitationId := some inv } s).state.user =
            some { u with activeOrganizationId := some retId })) := by
  obtain ⟨st, hst, hstne⟩ : ∃ st, s.storedToken = some st ∧ (st != "") = true := by
    cases hst : s.storedToken with
    | none => rw [hst] at htok; simp [jsTruthy] at htok
    | some st => exact ⟨st, rfl, by rw [hst] at htok; simpa [jsTruthy] using htok⟩
  constructor
  · intro h1 h2
    unfold handleCallback handleInviteCallback inviteTeamRedirect
      setActiveOrganizationAndTeam coreSetActiveOrganization coreSetActiveTeam
    simp [hinv, hload, hst, hstne, hacc, hoid, htid, h1, h2, jsTruthy, isActivationCall]
  · intro h1 h2
    unfold handleCallback handleInviteCallback
      setActiveOrganizationAndTeam coreSetActiveOrganization coreSetActiveTeam
    refine ⟨?_, ?_, ?_⟩
    · simp [hinv, hload, hst, hstne, hacc, hoid, htid, h1, h2, jsTruthy]
    · simp [hinv, hload, hst, hstne, hacc, hoid, htid, h1, h2, jsTruthy]
    · intro u hu
      simp [hinv, hload, hst, hstne, hacc, hoid, htid, h1, h2, jsTruthy,
        setActiveOrganizationId, hu]

/-- Witness for C3 at concrete inputs: a both-ids invitation against the
all-success gateway yields the accept, set-organization, set-team, list-teams
trace. -/
theorem C3_invite_activation_order_witness :
    (handleCallback gwInvite idPrims defaultConfig (some .invite) none
      { invitationId := some "inv-1" } authState).calls =
      [.acceptInvitation "inv-1", .setActiveOrganization "org-1",
       .setActiveTeam "team-1", .listUserTeams] :=
  ((C3_invite_activation_order gwInvite idPrims defaultConfig authState
    "inv-1" "org-1" "team-1" "org-1" rfl rfl (by decide) (by decide) (by decide)
    rfl).1 rfl rfl).1

/-- Every resolved signup-verification outcome carries a redirect or the
needs-login marker. -/
theorem emailVerification_resolved_navigable (gw : Gateway) (cfg : CallbackConfig)
    (t : String) (s : AuthState) :
    ∀ r, (handleEmailVerificationCallback gw cfg t s).outcome = some r →
      r.redirectTo.isSome = true ∨ r.needsLogin = some true := by
  intro r h
  unfold handleEmailVerificationCallback at h
  repeat' (first | (split at h) | (dsimp only at h))
  all_goals
    first
      | (simp only [Option.some.injEq] at h; subst h; simp)
      | simp_all

/-- Every resolved delete-user outcome carries a redirect or the needs-login
marker. -/
theorem deleteUser_resolved_navigable (gw : Gateway) (prims : JsPrims)
    (cfg : CallbackConfig) (t : String) (ue : Option String) (s : AuthState) :
    ∀ r, (handleDeleteUserCallback gw prims cfg t ue s).outcome = some r →
      r.redirectTo.isSome = true ∨ r.needsLogin = some true := by
  intro r h
  unfold handleDeleteUserCallback at h
  repeat' (first | (split at h) | (dsimp only at h))
  all_goals
    first
      | (simp only [Option.some.injEq] at h; subst h; simp)
      | simp_all

/-- Every reset-password outcome carries a redirect. -/
theorem passwordReset_resolved_navigable (cfg : CallbackConfig) (token : Option String) :
    ∀ r, handlePasswordResetCallback cfg token = r →
      r.redirectTo.isSome = true ∨ r.needsLogin = some true := by
  intro r h
  unfold handlePasswordResetCallback at h
  repeat' (first | (split at h) | (dsimp only at h))
  all_goals (subst h; simp)

/-- Every resolved invite outcome carries a redirect or the needs-login
marker. -/
theorem invite_resolved_navigable (gw : Gateway) (prims : JsPrims)
    (cfg : CallbackConfig) (invitationId : Option String) (s : AuthState) :
    ∀ r, (handleInviteCallback gw prims cfg invitationId s).outcome = some r →
      r.redirectTo.isSome = true ∨ r.needsLogin = some true := by
  intro r h
  unfold handleInviteCallback inviteTeamRedirect at h
  repeat' (first | (split at h) | (dsimp only at h))
  all_goals
    first
      | (simp only [Option.some.injEq] at h; subst h; simp [inviteFailedOutcome])
      | simp_all

/-- Every resolved confirm-change-email outcome carries a redirect or the
needs-login marker. -/
theorem confirmChangeEmail_resolved_navigable (gw : Gateway) (prims : JsPrims)
    (cfg : CallbackConfig) (t ne : String) (s : AuthState) :
    ∀ r, (handleConfirmChangeEmailCallback gw prims cfg t ne s).outcome = some r →
      r.redirectTo.isSome = true ∨ r.needsLogin = some true := by
  intro r h
  unfold handleConfirmChangeEmailCallback at h
  repeat' (first | (split at h) | (dsimp only at h))
  all_goals (simp only [Option.some.injEq] at h; subst h; simp)

/-- Every resolved verify-change-email outcome carries a redirect or the
needs-login marker. -/
theorem verifyChangeEmail_resolved_navigable (gw : Gateway) (prims : JsPrims)
    (cfg : CallbackConfig) (t : String) (s : AuthState) :
    ∀ r, (handleVerifyChangeEmailCallback gw prims cfg t s).outcome = some r →
      r.redirectTo.isSome = true ∨ r.needsLogin = some true := by
  intro r h
  unfold handleVerifyChangeEmailCallback at h
  repeat' (first | (split at h) | (dsimp only at h))
  all_goals (simp only [Option.some.injEq] at h; subst h; simp)

/-- Counterexample for C2: for the signup and delete-user kinds, a
transport-level rejection invokes neither client callback and the source has
no catch there, so the resolver never resolves — the run has no outcome at
all, refuting the claim that every kind resolves even when a gateway call
rejects without invoking its error callback. -/
theorem C2_reject_hangs_counterexample :
    (handleCallback gwReject idPrims defaultConfig (some .signup)
      (some "tk") {} baseState).outcome = none ∧
    (handleCallback gwReject idPrims defaultConfig (some .deleteUserKind)
      (some "tk") {} authState).outcome = none := by decide

/-- Claim C2 as amended: whenever `handleCallback` resolves, the outcome
carries either a redirect or the explicit needs-login marker, and in the
embedding no exception ever escapes the resolver; however for the signup and
delete-user kinds a gateway call that rejects without invoking its callbacks
leaves the promise unresolved (only the two change-email flows catch a
rejection and resolve optimistically). -/
theorem C2_resolved_outcome_navigable (gw : Gateway) (prims : JsPrims)
    (cfg : CallbackConfig) (kind : Option CallbackKind) (token : Option String)
    (opts : CallbackOptions) (s : AuthState) (r : CallbackResult)
    (h : (handleCallback gw prims cfg kind token opts s).outcome = some r) :
    r.redirectTo.isSome = true ∨ r.needsLogin = some true := by
  cases kind with
  | none =>
    simp only [handleCallback] at h
    try dsimp only at h
    simp only [Option.some.injEq] at h
    subst h; simp
  | some k =>
    cases k with
    | signup =>
      simp only [handleCallback] at h
      exact emailVerification_resolved_navigable gw cfg _ s r h
    | deleteUserKind =>
      simp only [handleCallback] at h
      exact deleteUser_resolved_navigable gw prims cfg _ _ s r h
    | resetPassword =>
      simp only [handleCallback] at h
      try dsimp only at h
      simp only [Option.some.injEq] at h
      exact passwordReset_resolved_navigable cfg token r h
    | invite =>
      simp only [handleCallback] at h
      exact invite_resolved_navigable gw prims cfg _ s r h
    | confirmChangeEmail =>
      simp only [handleCallback] at h
      exact confirmChangeEmail_resolved_navigable gw prims cfg _ _ s r h
    | verifyChangeEmail =>
      simp only [handleCallback] at h
      exact verifyChangeEmail_resolved_navigable gw prims cfg _ s r h

/-- Witness for C2 at concrete inputs: the resolved reset-password outcome
carries a redirect. -/
theorem C2_resolved_outcome_navigable_witness :
    ({ success := true, redirectTo := some "/reset-password?lang=us" } :
      CallbackResult).redirectTo.isSome = true ∨
    ({ success := true, redirectTo := some "/reset-password?lang=us" } :
      CallbackResult).needsLogin = some true :=
  C2_resolved_outcome_navigable stubGateway idPrims defaultConfig
    (some .resetPassword) none {} baseState
    { success := true, redirectTo := some "/reset-password?lang=us" } (by decide)

end SharedAuth
